import Mathlib

/-!
Verification of the patient-email plugin's send policy engine, data model
and request handlers, shallowly embedded from the Python/Django sources
(`models.py`, `model_extensions.py`, `forms.py`, `views.py`).

Modelling conventions:
* Email/string fields that Django stores as `blank/null` are modelled as
  `String`, with `""` standing for both `None` and the empty string (both
  are falsy in Python, and the code only tests truthiness).
* The external collaborators (template renderer `render_to_string`, mail
  transport `send_mail`, ORM `save`, wall clock `timezone.now`) are
  modelled as a per-call oracle `SendEnv` giving each collaborator's
  outcome: `Except` captures a Python exception versus a normal return.
* `send_email` is embedded as a total function producing a `SendOutcome`
  trace: the boolean return value, the in-memory profile, the persisted
  (database) profile row, the list of `update_fields` saves performed,
  every invocation of the mail transport, the diagnostic lines printed,
  and the caller's context dictionary after the call (Python dicts are
  mutated in place, so the post-call dictionary is observable).
-/

namespace PatientEmailPlugin

/-- The `PatientEmail` model of `models.py`: the per-patient email profile.
`patientPk` is the primary key of the owning `Patient`; `organization` is
the organization field inherited from the `RitikoModel` base class (the
base class is outside this repository; the spec states profiles are bound
to the patient's organization). `last_email_sent` is an optional
timestamp, modelled as a `Nat` clock reading. -/
structure PatientEmail where
  patientPk : Nat
  organization : Nat
  email : String
  secondary_email : String
  email_verified : Bool
  email_notifications_enabled : Bool
  preferred_email : String
  email_bounced : Bool
  last_email_sent : Option Nat
deriving DecidableEq, Repr

/-- A value stored in a template-rendering context dictionary: the code
puts the patient object, the profile object, and caller-supplied data
(dates, details) into the dict. -/
inductive CtxVal where
  | str (s : String)
  | patientRef (pk : Nat)
  | profileRef (p : PatientEmail)
deriving DecidableEq, Repr

/-- A Python dict used as template context, as an association list. -/
abbrev Ctx : Type := List (String × CtxVal)

instance instDecEqExcept {ε α : Type} [DecidableEq ε] [DecidableEq α] :
    DecidableEq (Except ε α) := fun a b =>
  match a, b with
  | .error e, .error f =>
    if h : e = f then .isTrue (h ▸ rfl)
    else .isFalse (fun hc => by cases hc; exact h rfl)
  | .error _, .ok _ => .isFalse (fun hc => Except.noConfusion hc)
  | .ok _, .error _ => .isFalse (fun hc => Except.noConfusion hc)
  | .ok x, .ok y =>
    if h : x = y then .isTrue (h ▸ rfl)
    else .isFalse (fun hc => by cases hc; exact h rfl)

/-- `d[k] = v` on a Python dict: replaces the value at an existing key,
else appends the new binding. -/
def ctxSet : Ctx → String → CtxVal → Ctx
  | [], k, v => [(k, v)]
  | (k0, v0) :: rest, k, v =>
    if k0 = k then (k, v) :: rest else (k0, v0) :: ctxSet rest k v

/-- `d.get(k)` on a Python dict. -/
def ctxLookup : Ctx → String → Option CtxVal
  | [], _ => none
  | (k0, v0) :: rest, k => if k0 = k then some v0 else ctxLookup rest k

/-- `PatientEmail.get_preferred_email` from `models.py`:
returns `secondary_email` if `preferred_email == "secondary"` and it is
truthy, else `email or secondary_email`. -/
def get_preferred_email (p : PatientEmail) : String :=
  if p.preferred_email = "secondary" ∧ p.secondary_email ≠ "" then
    p.secondary_email
  else if p.email ≠ "" then p.email else p.secondary_email

/-- Per-call outcomes of the external collaborators used by
`send_email`: the template renderer (`render_to_string`), the mail
transport (`send_mail`, returning the number of messages accepted), the
ORM row save, and the current time. An `Except.error` value is a Python
exception raised by that collaborator. -/
structure SendEnv where
  render : Except String String
  transport : Except String Nat
  save : Except String Unit
  now : Nat
deriving DecidableEq, Repr

/-- One invocation of the mail transport collaborator, with the keyword
arguments `send_mail` is called with in `models.py`. -/
structure MailMsg where
  subject : String
  message : String
  from_email : String
  recipient_list : List String
  html_message : String
deriving DecidableEq, Repr

/-- Observable outcome of one `send_email` call: the boolean return
value, the in-memory profile object after the call, the persisted
database row after the call, the `update_fields` lists of the saves
performed, the transport invocations, the diagnostic lines printed, and
the caller's context dictionary after the call. -/
structure SendOutcome where
  returned : Bool
  profile : PatientEmail
  persisted : PatientEmail
  savedFields : List (List String)
  transportCalls : List MailMsg
  logs : List String
  ctxAfter : Option Ctx
deriving DecidableEq, Repr

/-- The diagnostic line printed by the `except` clause of `send_email`:
`f"Failed to send email to patient {self.patient.pk}: {e}"`. -/
def failLog (p : PatientEmail) (e : String) : String :=
  "Failed to send email to patient " ++ toString p.patientPk ++ ": " ++ e

/-- Outcome of an eligibility-gate short circuit: `return False` before
the `try` block, with no effect of any kind. -/
def skipOutcome (p : PatientEmail) (context : Option Ctx) : SendOutcome :=
  { returned := false, profile := p, persisted := p, savedFields := [],
    transportCalls := [], logs := [], ctxAfter := context }

/-- `django.utils.html.strip_tags`, an external collaborator: removes
markup tags from a string. Modelled as the character-level automaton
dropping everything from each `<` to the matching `>`. -/
def stripTagsAux : List Char → Bool → List Char
  | [], _ => []
  | c :: rest, inTag =>
    if inTag then
      if c = '>' then stripTagsAux rest false else stripTagsAux rest true
    else
      if c = '<' then stripTagsAux rest true
      else c :: stripTagsAux rest false

/-- String-level wrapper of [[stripTagsAux]]. -/
def strip_tags (s : String) : String := ⟨stripTagsAux s.data false⟩

/-- The delivery half of `send_email`'s `try` block (`models.py` lines
136-156): call `send_mail`; on a truthy result set `last_email_sent`
to the current time and `save(update_fields=["last_email_sent"])`;
return `bool(result)`. A raised exception from the transport or the
save lands in the `except` clause: `return False` after printing the
diagnostic line. Note that when `save` raises, the transport call has
already happened and the in-memory assignment of `last_email_sent` has
already been made, but the row was not persisted. -/
def deliver (p : PatientEmail) (env : SendEnv)
    (subject message html_message : String) (ctxAfter : Option Ctx)
    (from_email email_address : String) : SendOutcome :=
  let msg : MailMsg :=
    { subject := subject, message := message, from_email := from_email,
      recipient_list := [email_address], html_message := html_message }
  match env.transport with
  | .error e =>
    { returned := false, profile := p, persisted := p, savedFields := [],
      transportCalls := [msg], logs := [failLog p e], ctxAfter := ctxAfter }
  | .ok result =>
    if result ≠ 0 then
      let p2 : PatientEmail := { p with last_email_sent := some env.now }
      match env.save with
      | .error e =>
        { returned := false, profile := p2, persisted := p, savedFields := [],
          transportCalls := [msg], logs := [failLog p e], ctxAfter := ctxAfter }
      | .ok _ =>
        { returned := true, profile := p2, persisted := p2,
          savedFields := [["last_email_sent"]], transportCalls := [msg],
          logs := [], ctxAfter := ctxAfter }
    else
      { returned := false, profile := p, persisted := p, savedFields := [],
        transportCalls := [msg], logs := [], ctxAfter := ctxAfter }

/-- `PatientEmail.send_email` from `models.py`. The three eligibility
checks run in order before the `try` block; inside the `try`, when a
truthy `template_name` and a non-`None` context are both given, the
context dict is mutated with the patient and the profile, the template
is rendered into `html_message`, and a falsy `message` is replaced by
`strip_tags` of the rendered HTML; then delivery proceeds. Any
exception raised inside the `try` is caught, logged, and turned into
`False`. -/
def send_email (p : PatientEmail) (env : SendEnv) (subject : String)
    (message : String) (html_message : String) (template_name : String)
    (context : Option Ctx) (from_email : String) : SendOutcome :=
  if p.email_notifications_enabled = false then skipOutcome p context
  else if p.email_bounced = true then skipOutcome p context
  else if get_preferred_email p = "" then skipOutcome p context
  else
    match context with
    | some ctx0 =>
      if template_name ≠ "" then
        match env.render with
        | .error e =>
          { returned := false, profile := p, persisted := p, savedFields := [],
            transportCalls := [], logs := [failLog p e],
            ctxAfter := some (ctxSet (ctxSet ctx0 "patient"
              (CtxVal.patientRef p.patientPk)) "email_profile"
              (CtxVal.profileRef p)) }
        | .ok html =>
          deliver p env subject
            (if message = "" then strip_tags html else message) html
            (some (ctxSet (ctxSet ctx0 "patient"
              (CtxVal.patientRef p.patientPk)) "email_profile"
              (CtxVal.profileRef p)))
            from_email (get_preferred_email p)
      else
        deliver p env subject message html_message (some ctx0) from_email
          (get_preferred_email p)
    | none =>
      deliver p env subject message html_message none from_email
        (get_preferred_email p)

/-- `PatientEmail.send_appointment_reminder` from `models.py`. -/
def send_appointment_reminder (p : PatientEmail) (env : SendEnv)
    (appointment_date appointment_time : String) : SendOutcome :=
  send_email p env "Appointment Reminder" "" ""
    "patient_email_plugin/emails/appointment_reminder.html"
    (some [("appointment_date", CtxVal.str appointment_date),
           ("appointment_time", CtxVal.str appointment_time)]) ""

/-- `PatientEmail.send_welcome_email` from `models.py`. -/
def send_welcome_email (p : PatientEmail) (env : SendEnv) : SendOutcome :=
  send_email p env "Welcome to our healthcare system" "" ""
    "patient_email_plugin/emails/welcome.html" (some []) ""

/-- `PatientEmail.send_care_plan_update` from `models.py`. -/
def send_care_plan_update (p : PatientEmail) (env : SendEnv)
    (care_plan_details : String) : SendOutcome :=
  send_email p env "Care Plan Update" "" ""
    "patient_email_plugin/emails/care_plan_update.html"
    (some [("care_plan_details", CtxVal.str care_plan_details)]) ""

/-- Eligibility of a profile for sending: notifications enabled, not
bounced, and a preferred address available — the complement of the gate
at the top of `send_email`. -/
def eligible (p : PatientEmail) : Prop :=
  p.email_notifications_enabled = true ∧ p.email_bounced = false ∧
    get_preferred_email p ≠ ""

instance (p : PatientEmail) : Decidable (eligible p) :=
  inferInstanceAs (Decidable (_ ∧ _ ∧ _))

/-- A `Patient` record as seen by this plugin: primary key and owning
organization. -/
structure PatientRec where
  pk : Nat
  organization : Nat
deriving DecidableEq, Repr

/-- The profile table `patient_email_profiles`, as the list of stored
rows. -/
structure DB where
  profiles : List PatientEmail
deriving DecidableEq, Repr

/-- ORM lookup of the profile row whose `patient_id` is `pk` (the
one-to-one field has a unique constraint; `find?` returns the first
match). -/
def findProfile (db : DB) (pk : Nat) : Option PatientEmail :=
  db.profiles.find? (fun q => q.patientPk == pk)

/-- The model-field defaults of `PatientEmail` applied by
`get_or_create`'s create path with `defaults={"organization":
patient.organization}`: `email_verified=False`,
`email_notifications_enabled=True`, `preferred_email="primary"`,
`email_bounced=False`, addresses blank, `last_email_sent` null. -/
def defaultProfile (patient : PatientRec) : PatientEmail :=
  { patientPk := patient.pk, organization := patient.organization,
    email := "", secondary_email := "", email_verified := false,
    email_notifications_enabled := true, preferred_email := "primary",
    email_bounced := false, last_email_sent := none }

/-- Django's `objects.get_or_create(patient=self, defaults={...})`:
return the existing row, or insert a fresh defaulted row; the boolean
is the `created` flag. -/
def get_or_create (db : DB) (patient : PatientRec) :
    PatientEmail × DB × Bool :=
  match findProfile db patient.pk with
  | some q => (q, db, false)
  | none =>
    let q := defaultProfile patient
    (q, { profiles := db.profiles ++ [q] }, true)

/-- `get_email_profile` from `model_extensions.py`: get or create the
email profile for this patient, discarding the `created` flag. -/
def get_email_profile (db : DB) (patient : PatientRec) :
    PatientEmail × DB :=
  let r := get_or_create db patient
  (r.1, r.2.1)

/-- Number of stored profile rows belonging to a patient. -/
def countFor (db : DB) (pk : Nat) : Nat :=
  (db.profiles.filter (fun q => q.patientPk == pk)).length

/-- A `JsonResponse` payload of the quick-action endpoint in
`views.py`: the `success` flag plus the optional `message` and `error`
fields. -/
structure JsonResp where
  success : Bool
  message : Option String
  error : Option String
deriving DecidableEq, Repr

/-- `ajax_patient_email_quick_actions` from `views.py`: permission
check, then dispatch on the `action` POST field to the patient-level
send operations (each of which fetches or creates the email profile and
delegates to it); unknown actions fall through to the initial
`success=False, message="Unknown action"` values. Returns the JSON
payload, the send outcomes produced, and the database after the call. -/
def ajax_patient_email_quick_actions (hasPerm : Bool) (db : DB)
    (patient : PatientRec) (env : SendEnv) (action : String)
    (appointment_date appointment_time : String) :
    JsonResp × List SendOutcome × DB :=
  if hasPerm = false then
    ({ success := false, message := none, error := some "Permission denied" },
      [], db)
  else if action = "send_welcome" then
    let r := get_email_profile db patient
    let o := send_welcome_email r.1 env
    ({ success := o.returned,
       message := some (if o.returned then "Welcome email sent"
         else "Failed to send welcome email"),
       error := none }, [o], r.2)
  else if action = "send_appointment_reminder" then
    let r := get_email_profile db patient
    let o := send_appointment_reminder r.1 env appointment_date appointment_time
    ({ success := o.returned,
       message := some (if o.returned then "Appointment reminder sent"
         else "Failed to send appointment reminder"),
       error := none }, [o], r.2)
  else if action = "verify_email" then
    let r := get_email_profile db patient
    let o := send_email r.1 env "Please verify your email address" "" ""
      "patient_email_plugin/emails/verify_email.html" (some []) ""
    ({ success := o.returned,
       message := some (if o.returned then "Verification email sent"
         else "Failed to send verification email"),
       error := none }, [o], r.2)
  else
    ({ success := false, message := some "Unknown action", error := none },
      [], db)

/-- Python's single-character substring replacement
`.replace(" ", "_")` as a character map. -/
def spaceToUnderscore (ch : Char) : Char := if ch = ' ' then '_' else ch

/-- Python's `str.lower()` on one character, for the ASCII range the
template names use: codepoints 65-90 shift to 97-122, all else is
unchanged. -/
def lowerChar (ch : Char) : Char :=
  if 65 ≤ ch.toNat ∧ ch.toNat ≤ 90 then Char.ofNat (ch.toNat + 32) else ch

/-- `EmailTemplateForm.clean_name` from `forms.py`:
`name.lower().replace(" ", "_")`, applied to the submitted name on
every form save. -/
def clean_name (name : String) : String :=
  ⟨(name.data.map lowerChar).map spaceToUnderscore⟩

/-- Fault-absorption shape of a send outcome: either no diagnostic was
printed, or exactly one diagnostic line identifying the patient was
printed and the call returned `false`. -/
def absorbed (p : PatientEmail) (o : SendOutcome) : Prop :=
  o.logs = [] ∨ ∃ e, o.logs = [failLog p e] ∧ o.returned = false

/-- A profile with notifications disabled but both addresses present,
used to exercise the first eligibility check. -/
def exProfileDisabled : PatientEmail :=
  { patientPk := 7, organization := 1, email := "a@x.com",
    secondary_email := "b@x.com", email_verified := false,
    email_notifications_enabled := false, preferred_email := "primary",
    email_bounced := false, last_email_sent := none }

/-- A fully eligible profile. -/
def exProfileOk : PatientEmail :=
  { patientPk := 3, organization := 1, email := "a@x.com",
    secondary_email := "", email_verified := true,
    email_notifications_enabled := true, preferred_email := "primary",
    email_bounced := false, last_email_sent := none }

/-- An eligible profile preferring its secondary address. -/
def exProfileSec : PatientEmail :=
  { patientPk := 4, organization := 1, email := "a@x.com",
    secondary_email := "b@x.com", email_verified := true,
    email_notifications_enabled := true, preferred_email := "secondary",
    email_bounced := false, last_email_sent := none }

/-- A concrete patient record. -/
def exPatient : PatientRec := { pk := 1, organization := 1 }

/-- An empty profile table. -/
def exDB : DB := { profiles := [] }

/-- An oracle in which every collaborator succeeds. -/
def exEnvOk : SendEnv :=
  { render := .ok "<p>Hi</p>", transport := .ok 1, save := .ok (), now := 5 }

/-- An oracle in which the transport succeeds but the row save raises. -/
def exEnvSaveFails : SendEnv :=
  { render := .ok "<p>Hi</p>", transport := .ok 1,
    save := .error "db gone", now := 5 }

/-- A caller-supplied context that already binds the key `"patient"`. -/
def exCtx : Ctx := [("patient", CtxVal.str "caller-value")]

/-- Per-character shape of the normalized template name: never a space,
never an ASCII uppercase letter (codepoints 65-90). -/
theorem lowerChar_shape (ch : Char) :
    spaceToUnderscore (lowerChar ch) ≠ ' ' ∧
    ¬(65 ≤ (spaceToUnderscore (lowerChar ch)).toNat ∧
      (spaceToUnderscore (lowerChar ch)).toNat ≤ 90) := by
  unfold lowerChar
  by_cases h : 65 ≤ ch.toNat ∧ ch.toNat ≤ 90
  · rw [if_pos h]
    obtain ⟨h1, h2⟩ := h
    revert h1 h2
    generalize ch.toNat = n
    intro h1 h2
    interval_cases n <;> exact ⟨by decide, by decide⟩
  · rw [if_neg h]
    unfold spaceToUnderscore
    by_cases hs : ch = ' '
    · rw [if_pos hs]; exact ⟨by decide, by decide⟩
    · rw [if_neg hs]; exact ⟨hs, h⟩

/-- C1: for every profile, `send_email` returns `false` without raising
and without invoking the mail transport when `email_notifications_enabled`
is false, or `email_bounced` is true, or `get_preferred_email()` yields no
address; the first failing check short-circuits the rest (the outcome is
exactly the effect-free `skipOutcome`, whichever of the three checks
fails first). Raising is impossible by construction: the embedded
`send_email` is total. -/
theorem send_email_gate_short_circuits (p : PatientEmail) (env : SendEnv)
    (subject message html_message template_name : String)
    (context : Option Ctx) (from_email : String)
    (h : p.email_notifications_enabled = false ∨ p.email_bounced = true ∨
      get_preferred_email p = "") :
    (send_email p env subject message html_message template_name context
      from_email).returned = false ∧
    (send_email p env subject message html_message template_name context
      from_email).transportCalls = [] ∧
    send_email p env subject message html_message template_name context
      from_email = skipOutcome p context := by
  have hs : send_email p env subject message html_message template_name context
      from_email = skipOutcome p context := by
    unfold send_email
    rcases h with h | h | h
    · rw [if_pos h]
    · by_cases h1 : p.email_notifications_enabled = false
      · rw [if_pos h1]
      · rw [if_neg h1, if_pos h]
    · by_cases h1 : p.email_notifications_enabled = false
      · rw [if_pos h1]
      · by_cases h2 : p.email_bounced = true
        · rw [if_neg h1, if_pos h2]
        · rw [if_neg h1, if_neg h2, if_pos h]
  exact ⟨by rw [hs]; rfl, by rw [hs]; rfl, hs⟩

/-- Witness for C1 at a concrete profile with notifications disabled. -/
theorem send_email_gate_short_circuits_witness :
    (exProfileDisabled.email_notifications_enabled = false ∨
      exProfileDisabled.email_bounced = true ∨
      get_preferred_email exProfileDisabled = "") ∧
    ((send_email exProfileDisabled exEnvOk "Hi" "Body" "" "" none
      "").returned = false ∧
    (send_email exProfileDisabled exEnvOk "Hi" "Body" "" "" none
      "").transportCalls = [] ∧
    send_email exProfileDisabled exEnvOk "Hi" "Body" "" "" none "" =
      skipOutcome exProfileDisabled none) :=
  ⟨by decide,
   send_email_gate_short_circuits exProfileDisabled exEnvOk "Hi" "Body" ""
     "" none "" (by decide)⟩

/-- C2: `get_preferred_email` returns `secondary_email` when
`preferred_email = "secondary"` and `secondary_email` is non-empty;
otherwise it returns `email`, falling back to `secondary_email` when
`email` is empty; and it returns the empty value when both addresses are
empty. -/
theorem get_preferred_email_spec (p : PatientEmail) :
    (p.preferred_email = "secondary" ∧ p.secondary_email ≠ "" →
      get_preferred_email p = p.secondary_email) ∧
    (¬(p.preferred_email = "secondary" ∧ p.secondary_email ≠ "") →
      p.email ≠ "" → get_preferred_email p = p.email) ∧
    (¬(p.preferred_email = "secondary" ∧ p.secondary_email ≠ "") →
      p.email = "" → get_preferred_email p = p.secondary_email) ∧
    (p.email = "" ∧ p.secondary_email = "" →
      get_preferred_email p = "") := by
  unfold get_preferred_email
  refine ⟨fun h => ?_, fun h he => ?_, fun h he => ?_, fun h => ?_⟩
  · rw [if_pos h]
  · rw [if_neg h, if_pos he]
  · rw [if_neg h, if_neg (by simp [he])]
  · rw [if_neg (fun hc => hc.2 h.2), if_neg (by simp [h.1]), h.2]

/-- Witness for C2 at a secondary-preferring profile and a
primary-preferring profile. -/
theorem get_preferred_email_spec_witness :
    get_preferred_email exProfileSec = exProfileSec.secondary_email ∧
    get_preferred_email exProfileOk = exProfileOk.email :=
  ⟨(get_preferred_email_spec exProfileSec).1 (by decide),
   (get_preferred_email_spec exProfileOk).2.1 (by decide) (by decide)⟩

/-- C6: the template name is normalized by `clean_name` on every form
save: the result contains no space and no ASCII uppercase letter, and in
particular the name input `"Welcome Email"` is stored as
`"welcome_email"`. -/
theorem clean_name_normalizes :
    (∀ name : String, ∀ ch ∈ (clean_name name).data,
      ch ≠ ' ' ∧ ¬(65 ≤ ch.toNat ∧ ch.toNat ≤ 90)) ∧
    clean_name "Welcome Email" = "welcome_email" := by
  constructor
  · intro name ch hch
    unfold clean_name at hch
    simp only [List.mem_map] at hch
    obtain ⟨d, ⟨d0, _, rfl⟩, rfl⟩ := hch
    exact lowerChar_shape d0
  · decide

/-- Witness for C6: the normalization scenario, and the per-character
shape at a concrete character of the normalized name. -/
theorem clean_name_normalizes_witness :
    clean_name "Welcome Email" = "welcome_email" ∧
    ('w' ≠ ' ' ∧ ¬(65 ≤ 'w'.toNat ∧ 'w'.toNat ≤ 90)) :=
  ⟨clean_name_normalizes.2,
   clean_name_normalizes.1 "Welcome Email" 'w' (by decide)⟩

/-- C7: every authorized quick-action request whose action is none of
`send_welcome`, `send_appointment_reminder`, `verify_email` gets the JSON
pair `success=false, message="Unknown action"`, performs no send, and
leaves the profile table untouched. -/
theorem quick_action_unknown (hasPerm : Bool) (db : DB)
    (patient : PatientRec) (env : SendEnv)
    (action appointment_date appointment_time : String)
    (hperm : hasPerm = true)
    (h1 : action ≠ "send_welcome")
    (h2 : action ≠ "send_appointment_reminder")
    (h3 : action ≠ "verify_email") :
    ajax_patient_email_quick_actions hasPerm db patient env action
        appointment_date appointment_time =
      ({ success := false, message := some "Unknown action", error := none },
        [], db) := by
  unfold ajax_patient_email_quick_actions
  rw [if_neg (by simp [hperm]), if_neg h1, if_neg h2, if_neg h3]

/-- Witness for C7: the quick action `"unknown_action"`. -/
theorem quick_action_unknown_witness :
    ajax_patient_email_quick_actions true exDB exPatient exEnvOk
        "unknown_action" "" "" =
      ({ success := false, message := some "Unknown action", error := none },
        [], exDB) :=
  quick_action_unknown true exDB exPatient exEnvOk "unknown_action" "" ""
    rfl (by decide) (by decide) (by decide)

/-- Every outcome of `send_email` is a gate skip, a caught rendering
fault, or a delivery attempt: the master case analysis over the embedded
control flow. -/
theorem send_email_cases (p : PatientEmail) (env : SendEnv)
    (s m hm tn : String) (ctx : Option Ctx) (fe : String)
    (P : SendOutcome → Prop)
    (hskip : ∀ c, P (skipOutcome p c))
    (herr : ∀ e c, P { returned := false, profile := p, persisted := p,
                       savedFields := [], transportCalls := [],
                       logs := [failLog p e], ctxAfter := some c })
    (hdel : ∀ s1 m1 h1 c a, P (deliver p env s1 m1 h1 c fe a)) :
    P (send_email p env s m hm tn ctx fe) := by
  unfold send_email
  by_cases h1 : p.email_notifications_enabled = false
  · rw [if_pos h1]; exact hskip ctx
  rw [if_neg h1]
  by_cases h2 : p.email_bounced = true
  · rw [if_pos h2]; exact hskip ctx
  rw [if_neg h2]
  by_cases h3 : get_preferred_email p = ""
  · rw [if_pos h3]; exact hskip ctx
  rw [if_neg h3]
  cases ctx with
  | none => exact hdel s m hm none (get_preferred_email p)
  | some c0 =>
    dsimp only
    by_cases h4 : tn ≠ ""
    · rw [if_pos h4]
      cases hr : env.render with
      | error e => exact herr e _
      | ok html => exact hdel s _ html _ (get_preferred_email p)
    · rw [if_neg h4]
      exact hdel s m hm (some c0) (get_preferred_email p)

/-- `deliver` invokes the transport exactly once, with the subject, the
plain-text body, the sender, the single-recipient list, and the HTML
body it was given. -/
theorem deliver_transportCalls (p : PatientEmail) (env : SendEnv)
    (s m hm : String) (c : Option Ctx) (fe a : String) :
    (deliver p env s m hm c fe a).transportCalls =
      [{ subject := s, message := m, from_email := fe,
         recipient_list := [a], html_message := hm }] := by
  unfold deliver
  cases htr : env.transport with
  | error e => rfl
  | ok n =>
    dsimp only
    by_cases hn : n ≠ 0
    · rw [if_pos hn]
      cases hsv : env.save with
      | error e => rfl
      | ok u => rfl
    · rw [if_neg hn]

/-- `deliver` never touches the caller's context dictionary. -/
theorem deliver_ctxAfter (p : PatientEmail) (env : SendEnv)
    (s m hm : String) (c : Option Ctx) (fe a : String) :
    (deliver p env s m hm c fe a).ctxAfter = c := by
  unfold deliver
  cases htr : env.transport with
  | error e => rfl
  | ok n =>
    dsimp only
    by_cases hn : n ≠ 0
    · rw [if_pos hn]
      cases hsv : env.save with
      | error e => rfl
      | ok u => rfl
    · rw [if_neg hn]

/-- Fault absorption in `deliver`: the diagnostics are empty, or a
single line identifying the patient together with a `false` return. -/
theorem deliver_absorbed (p : PatientEmail) (env : SendEnv)
    (s m hm : String) (c : Option Ctx) (fe a : String) :
    absorbed p (deliver p env s m hm c fe a) := by
  unfold deliver absorbed
  cases htr : env.transport with
  | error e => exact Or.inr ⟨e, rfl, rfl⟩
  | ok n =>
    dsimp only
    by_cases hn : n ≠ 0
    · rw [if_pos hn]
      cases hsv : env.save with
      | error e => exact Or.inr ⟨e, rfl, rfl⟩
      | ok u => exact Or.inl rfl
    · rw [if_neg hn]; exact Or.inl rfl

/-- Frame effect of `deliver`: on a `true` return the persisted row is
the input row with only `last_email_sent` replaced by the current time,
saved via exactly one single-field `update_fields` list; on a `false`
return the persisted row is untouched and no save happened. -/
theorem deliver_frame (p : PatientEmail) (env : SendEnv)
    (s m hm : String) (c : Option Ctx) (fe a : String) :
    ((deliver p env s m hm c fe a).returned = true →
      (deliver p env s m hm c fe a).persisted =
        { p with last_email_sent := some env.now } ∧
      (deliver p env s m hm c fe a).savedFields = [["last_email_sent"]]) ∧
    ((deliver p env s m hm c fe a).returned = false →
      (deliver p env s m hm c fe a).persisted = p ∧
      (deliver p env s m hm c fe a).savedFields = []) := by
  unfold deliver
  cases htr : env.transport with
  | error e => exact ⟨fun h => Bool.noConfusion h, fun _ => ⟨rfl, rfl⟩⟩
  | ok n =>
    dsimp only
    by_cases hn : n ≠ 0
    · rw [if_pos hn]
      cases hsv : env.save with
      | error e => exact ⟨fun h => Bool.noConfusion h, fun _ => ⟨rfl, rfl⟩⟩
      | ok u => exact ⟨fun _ => ⟨rfl, rfl⟩, fun h => Bool.noConfusion h⟩
    · rw [if_neg hn]
      exact ⟨fun h => Bool.noConfusion h, fun _ => ⟨rfl, rfl⟩⟩

/-- A `true` return from `deliver` requires a non-zero transport result
and a successful save; it comes with the single-field persistence and a
recorded transport invocation. -/
theorem deliver_success_shape (p : PatientEmail) (env : SendEnv)
    (s m hm : String) (c : Option Ctx) (fe a : String)
    (h : (deliver p env s m hm c fe a).returned = true) :
    (∃ k, env.transport = .ok k ∧ k ≠ 0) ∧ env.save = .ok () ∧
    (deliver p env s m hm c fe a).savedFields = [["last_email_sent"]] ∧
    (deliver p env s m hm c fe a).transportCalls ≠ [] := by
  revert h
  unfold deliver
  cases htr : env.transport with
  | error e => exact fun h => by cases h
  | ok n =>
    dsimp only
    by_cases hn : n ≠ 0
    · rw [if_pos hn]
      cases hsv : env.save with
      | error e => exact fun h => by cases h
      | ok u =>
        exact fun _ => ⟨⟨n, rfl, hn⟩, rfl, rfl, by simp⟩
    · rw [if_neg hn]
      exact fun h => by cases h

/-- When the transport accepts the message but the row save raises,
`deliver` returns `false` even though the transport was invoked. -/
theorem deliver_save_error (p : PatientEmail) (env : SendEnv)
    (s m hm : String) (c : Option Ctx) (fe a : String) (n : Nat) (e : String)
    (htr : env.transport = .ok n) (hn : n ≠ 0) (hsv : env.save = .error e) :
    (deliver p env s m hm c fe a).returned = false ∧
    (deliver p env s m hm c fe a).transportCalls =
      [{ subject := s, message := m, from_email := fe,
         recipient_list := [a], html_message := hm }] ∧
    (deliver p env s m hm c fe a).logs = [failLog p e] := by
  unfold deliver
  rw [htr]
  dsimp only
  rw [if_pos hn]
  rw [hsv]
  exact ⟨rfl, rfl, rfl⟩

/-- With an eligible profile, no template, and no context, `send_email`
goes straight to delivery at the preferred address. -/
theorem send_email_eligible_none (p : PatientEmail) (env : SendEnv)
    (s m hm fe : String) (h : eligible p) :
    send_email p env s m hm "" none fe =
      deliver p env s m hm none fe (get_preferred_email p) := by
  obtain ⟨h1, h2, h3⟩ := h
  unfold send_email
  rw [if_neg (by simp [h1]), if_neg (by simp [h2]), if_neg h3]

/-- With an eligible profile, a template name, a context and a
successful render, `send_email` augments the context with the patient
and the profile, renders `html`, derives the plain text from the HTML
when `message` is empty, and delivers. -/
theorem send_email_eligible_template (p : PatientEmail) (env : SendEnv)
    (s m hm tn : String) (c : Ctx) (fe html : String) (h : eligible p)
    (htn : tn ≠ "") (hr : env.render = .ok html) :
    send_email p env s m hm tn (some c) fe =
      deliver p env s (if m = "" then strip_tags html else m) html
        (some (ctxSet (ctxSet c "patient" (CtxVal.patientRef p.patientPk))
          "email_profile" (CtxVal.profileRef p)))
        fe (get_preferred_email p) := by
  obtain ⟨h1, h2, h3⟩ := h
  unfold send_email
  rw [if_neg (by simp [h1]), if_neg (by simp [h2]), if_neg h3]
  dsimp only
  rw [if_pos htn, hr]

/-- With an eligible profile, a template name, a context and a raising
render, `send_email` returns `false` with one diagnostic line — but the
context has already been mutated. -/
theorem send_email_eligible_render_error (p : PatientEmail) (env : SendEnv)
    (s m hm tn : String) (c : Ctx) (fe e : String) (h : eligible p)
    (htn : tn ≠ "") (hr : env.render = .error e) :
    send_email p env s m hm tn (some c) fe =
      { returned := false, profile := p, persisted := p, savedFields := [],
        transportCalls := [], logs := [failLog p e],
        ctxAfter := some (ctxSet (ctxSet c "patient"
          (CtxVal.patientRef p.patientPk)) "email_profile"
          (CtxVal.profileRef p)) } := by
  obtain ⟨h1, h2, h3⟩ := h
  unfold send_email
  rw [if_neg (by simp [h1]), if_neg (by simp [h2]), if_neg h3]
  dsimp only
  rw [if_pos htn, hr]

/-- C3: every fault raised inside the send path is caught at the
component boundary and converted to a `false` return plus one diagnostic
line identifying the patient; no exception propagates (the embedded send
path is a total function), and the same holds through the derived
operations. The last two conjuncts pin the caught render fault and the
caught transport fault explicitly. -/
theorem send_path_absorbs_faults (p : PatientEmail) (env : SendEnv)
    (subject message html_message template_name : String)
    (context : Option Ctx) (from_email : String)
    (apptDate apptTime details e : String) (c : Ctx) :
    absorbed p (send_email p env subject message html_message template_name
      context from_email) ∧
    absorbed p (send_appointment_reminder p env apptDate apptTime) ∧
    absorbed p (send_welcome_email p env) ∧
    absorbed p (send_care_plan_update p env details) ∧
    (eligible p → template_name ≠ "" → env.render = .error e →
      (send_email p env subject message html_message template_name (some c)
        from_email).returned = false ∧
      (send_email p env subject message html_message template_name (some c)
        from_email).logs = [failLog p e]) ∧
    (eligible p → env.transport = .error e →
      (send_email p env subject message html_message "" none
        from_email).returned = false ∧
      (send_email p env subject message html_message "" none
        from_email).logs = [failLog p e]) := by
  have habs : ∀ s m hm tn ctx fe, absorbed p (send_email p env s m hm tn ctx fe) := by
    intro s m hm tn ctx fe
    exact send_email_cases p env s m hm tn ctx fe (absorbed p)
      (fun c1 => Or.inl rfl)
      (fun e1 c1 => Or.inr ⟨e1, rfl, rfl⟩)
      (fun s1 m1 h1 c1 a => deliver_absorbed p env s1 m1 h1 c1 fe a)
  refine ⟨habs _ _ _ _ _ _, habs _ _ _ _ _ _, habs _ _ _ _ _ _,
    habs _ _ _ _ _ _, fun helig htn hr => ?_, fun helig htr => ?_⟩
  · rw [send_email_eligible_render_error p env subject message html_message
      template_name c from_email e helig htn hr]
    exact ⟨rfl, rfl⟩
  · rw [send_email_eligible_none p env subject message html_message
      from_email helig]
    unfold deliver
    dsimp only
    rw [htr]
    exact ⟨rfl, rfl⟩

/-- Witness for C3 at a transport fault on an eligible profile. -/
theorem send_path_absorbs_faults_witness :
    (send_email exProfileOk
      { render := .ok "", transport := .error "boom", save := .ok (), now := 9 }
      "Hi" "Body" "" "" none "").returned = false ∧
    (send_email exProfileOk
      { render := .ok "", transport := .error "boom", save := .ok (), now := 9 }
      "Hi" "Body" "" "" none "").logs = [failLog exProfileOk "boom"] :=
  (send_path_absorbs_faults exProfileOk
    { render := .ok "", transport := .error "boom", save := .ok (), now := 9 }
    "Hi" "Body" "" "" none "" "" "" "" "boom" []).2.2.2.2.2
    (by decide) (by decide)

/-- C4: on a `true` return of `send_email` the persisted row is the
input profile with only `last_email_sent` replaced by the current clock
reading (a time at or after the call's start), saved through exactly one
`update_fields=["last_email_sent"]` call; on a `false` (failed or
skipped) return the persisted row is unchanged and no save happened. -/
theorem send_email_frame (p : PatientEmail) (env : SendEnv)
    (subject message html_message template_name : String)
    (context : Option Ctx) (from_email : String) (tstart : Nat)
    (hclock : tstart ≤ env.now) :
    ((send_email p env subject message html_message template_name context
        from_email).returned = true →
      (send_email p env subject message html_message template_name context
        from_email).persisted = { p with last_email_sent := some env.now } ∧
      (send_email p env subject message html_message template_name context
        from_email).savedFields = [["last_email_sent"]] ∧
      ∃ t, (send_email p env subject message html_message template_name
        context from_email).persisted.last_email_sent = some t ∧
        tstart ≤ t) ∧
    ((send_email p env subject message html_message template_name context
        from_email).returned = false →
      (send_email p env subject message html_message template_name context
        from_email).persisted = p ∧
      (send_email p env subject message html_message template_name context
        from_email).savedFields = []) := by
  refine send_email_cases p env subject message html_message template_name
    context from_email
    (fun o => (o.returned = true →
      o.persisted = { p with last_email_sent := some env.now } ∧
      o.savedFields = [["last_email_sent"]] ∧
      ∃ t, o.persisted.last_email_sent = some t ∧ tstart ≤ t) ∧
      (o.returned = false → o.persisted = p ∧ o.savedFields = []))
    (fun c => ⟨fun h => Bool.noConfusion h, fun _ => ⟨rfl, rfl⟩⟩)
    (fun e c => ⟨fun h => Bool.noConfusion h, fun _ => ⟨rfl, rfl⟩⟩)
    (fun s1 m1 h1 c a => ?_)
  have hf := deliver_frame p env s1 m1 h1 c from_email a
  refine ⟨fun h => ?_, hf.2⟩
  obtain ⟨hp, hs⟩ := hf.1 h
  exact ⟨hp, hs, env.now, by rw [hp], hclock⟩

/-- Witness for C4 at a successful concrete send. -/
theorem send_email_frame_witness :
    (send_email exProfileOk exEnvOk "Hi" "Body" "" "" none "").persisted =
      { exProfileOk with last_email_sent := some exEnvOk.now } ∧
    (send_email exProfileOk exEnvOk "Hi" "Body" "" "" none "").savedFields =
      [["last_email_sent"]] ∧
    (∃ t, (send_email exProfileOk exEnvOk "Hi" "Body" "" "" none
      "").persisted.last_email_sent = some t ∧ 0 ≤ t) :=
  (send_email_frame exProfileOk exEnvOk "Hi" "Body" "" "" none "" 0
    (by decide)).1 (by decide)

/-- C5: with a template reference and a context both supplied and no
explicit plain-text message, an eligible `send_email` call augments the
context with the patient and the profile, renders the template into the
HTML body, and hands the transport a plain-text body equal to the
rendered HTML with all markup tags stripped, addressed to the single
preferred recipient. -/
theorem send_email_template_plaintext (p : PatientEmail) (env : SendEnv)
    (subject template_name : String) (c : Ctx) (from_email html : String)
    (helig : eligible p) (htn : template_name ≠ "")
    (hr : env.render = .ok html) :
    (send_email p env subject "" "" template_name (some c)
      from_email).transportCalls =
      [{ subject := subject, message := strip_tags html,
         from_email := from_email,
         recipient_list := [get_preferred_email p],
         html_message := html }] ∧
    (send_email p env subject "" "" template_name (some c)
      from_email).ctxAfter =
      some (ctxSet (ctxSet c "patient" (CtxVal.patientRef p.patientPk))
        "email_profile" (CtxVal.profileRef p)) := by
  rw [send_email_eligible_template p env subject "" "" template_name c
    from_email html helig htn hr]
  rw [if_pos rfl]
  exact ⟨deliver_transportCalls p env subject (strip_tags html) html _
    from_email (get_preferred_email p),
    deliver_ctxAfter p env subject (strip_tags html) html _
    from_email (get_preferred_email p)⟩

/-- Witness for C5 at a concrete render. -/
theorem send_email_template_plaintext_witness :
    (send_email exProfileOk exEnvOk "Hi" "" "" "tpl.html" (some [])
      "").transportCalls =
      [{ subject := "Hi", message := strip_tags "<p>Hi</p>",
         from_email := "",
         recipient_list := [get_preferred_email exProfileOk],
         html_message := "<p>Hi</p>" }] ∧
    (send_email exProfileOk exEnvOk "Hi" "" "" "tpl.html" (some [])
      "").ctxAfter =
      some (ctxSet (ctxSet [] "patient"
        (CtxVal.patientRef exProfileOk.patientPk)) "email_profile"
        (CtxVal.profileRef exProfileOk)) :=
  send_email_template_plaintext exProfileOk exEnvOk "Hi" "tpl.html" [] ""
    "<p>Hi</p>" (by decide) (by decide) (by decide)

/-- `find?` skips a prefix in which nothing matches. -/
theorem find_append_none {α : Type} (pr : α → Bool) (l₁ l₂ : List α)
    (h : l₁.find? pr = none) : (l₁ ++ l₂).find? pr = l₂.find? pr := by
  induction l₁ with
  | nil => rfl
  | cons x l ih =>
    rw [List.cons_append]
    by_cases hx : pr x = true
    · rw [List.find?_cons_of_pos _ hx] at h
      exact absurd h (by simp)
    · rw [List.find?_cons_of_neg _ hx] at h
      rw [List.find?_cons_of_neg _ hx]
      exact ih h

/-- C8: fetching the email profile is idempotent: a second fetch after
any fetch returns the same profile and leaves the table unchanged; when
no profile exists one is created with default settings bound to the
patient's organization; the per-patient row count stays at most one; and
after a fetch the patient's stored row is exactly the returned one. -/
theorem get_email_profile_idempotent (db : DB) (patient : PatientRec) :
    ((get_email_profile (get_email_profile db patient).2 patient).1 =
      (get_email_profile db patient).1 ∧
     (get_email_profile (get_email_profile db patient).2 patient).2 =
      (get_email_profile db patient).2) ∧
    (findProfile db patient.pk = none →
      (get_email_profile db patient).1 = defaultProfile patient ∧
      (get_email_profile db patient).1.organization =
        patient.organization) ∧
    (countFor db patient.pk ≤ 1 →
      countFor (get_email_profile db patient).2 patient.pk ≤ 1) ∧
    findProfile (get_email_profile db patient).2 patient.pk =
      some (get_email_profile db patient).1 := by
  cases hf : findProfile db patient.pk with
  | some q =>
    have h1 : get_email_profile db patient = (q, db) := by
      unfold get_email_profile get_or_create
      rw [hf]
    refine ⟨⟨by simp [h1], by simp [h1]⟩, ?_, ?_, ?_⟩
    · intro hno; exact Option.noConfusion hno
    · intro hc; simpa [h1] using hc
    · simp [h1, hf]
  | none =>
    have h2 : findProfile
        { profiles := db.profiles ++ [defaultProfile patient] } patient.pk =
        some (defaultProfile patient) := by
      unfold findProfile at hf ⊢
      rw [find_append_none _ _ _ hf]
      simp [List.find?, defaultProfile]
    have h1 : get_email_profile db patient =
        (defaultProfile patient,
         { profiles := db.profiles ++ [defaultProfile patient] }) := by
      unfold get_email_profile get_or_create
      rw [hf]
    have h3 : get_email_profile
        { profiles := db.profiles ++ [defaultProfile patient] } patient =
        (defaultProfile patient,
         { profiles := db.profiles ++ [defaultProfile patient] }) := by
      unfold get_email_profile get_or_create
      rw [h2]
    refine ⟨⟨by simp [h1, h3], by simp [h1, h3]⟩, ?_, ?_, ?_⟩
    · intro _; exact ⟨by simp [h1], by simp [h1, defaultProfile]⟩
    · intro _
      have h0 : db.profiles.filter (fun q => q.patientPk == patient.pk) = [] := by
        rw [List.filter_eq_nil_iff]
        intro a ha
        unfold findProfile at hf
        exact List.find?_eq_none.mp hf a ha
      simp only [h1]
      unfold countFor
      simp [List.filter_append, h0, List.filter, defaultProfile]
    · simp [h1, h2]

/-- Witness for C8 on an empty table: creation, then an idempotent
re-fetch. -/
theorem get_email_profile_idempotent_witness :
    ((get_email_profile (get_email_profile exDB exPatient).2 exPatient).1 =
      (get_email_profile exDB exPatient).1 ∧
     (get_email_profile (get_email_profile exDB exPatient).2 exPatient).2 =
      (get_email_profile exDB exPatient).2) ∧
    ((get_email_profile exDB exPatient).1 = defaultProfile exPatient ∧
     (get_email_profile exDB exPatient).1.organization =
       exPatient.organization) ∧
    countFor (get_email_profile exDB exPatient).2 exPatient.pk ≤ 1 :=
  ⟨(get_email_profile_idempotent exDB exPatient).1,
   (get_email_profile_idempotent exDB exPatient).2.1 (by decide),
   (get_email_profile_idempotent exDB exPatient).2.2.1 (by decide)⟩

/-- C9: a `true` return of `send_email` implies the transport accepted
the message (non-zero result, no exception) and `last_email_sent` was
persisted; conversely, when the transport accepts but persisting raises,
the call returns `false` although the transport was invoked with the
message. -/
theorem send_email_true_iff_sent_and_persisted (p : PatientEmail)
    (env : SendEnv) (subject message html_message template_name : String)
    (context : Option Ctx) (from_email e : String) (n : Nat) :
    ((send_email p env subject message html_message template_name context
        from_email).returned = true →
      (∃ k, env.transport = .ok k ∧ k ≠ 0) ∧ env.save = .ok () ∧
      (send_email p env subject message html_message template_name context
        from_email).savedFields = [["last_email_sent"]] ∧
      (send_email p env subject message html_message template_name context
        from_email).transportCalls ≠ []) ∧
    (eligible p → env.transport = .ok n → n ≠ 0 → env.save = .error e →
      (send_email p env subject message html_message "" none
        from_email).returned = false ∧
      (send_email p env subject message html_message "" none
        from_email).transportCalls =
        [{ subject := subject, message := message,
           from_email := from_email,
           recipient_list := [get_preferred_email p],
           html_message := html_message }]) := by
  constructor
  · exact send_email_cases p env subject message html_message template_name
      context from_email
      (fun o => o.returned = true →
        (∃ k, env.transport = .ok k ∧ k ≠ 0) ∧ env.save = .ok () ∧
        o.savedFields = [["last_email_sent"]] ∧ o.transportCalls ≠ [])
      (fun c h => Bool.noConfusion h)
      (fun e1 c h => Bool.noConfusion h)
      (fun s1 m1 h1 c a h =>
        deliver_success_shape p env s1 m1 h1 c from_email a h)
  · intro helig htr hn hsv
    rw [send_email_eligible_none p env subject message html_message
      from_email helig]
    have hd := deliver_save_error p env subject message html_message none
      from_email (get_preferred_email p) n e htr hn hsv
    exact ⟨hd.1, hd.2.1⟩

/-- Witness for C9: transport accepts, save raises, the call returns
`false` with the transport invoked. -/
theorem send_email_true_iff_sent_and_persisted_witness :
    (send_email exProfileOk exEnvSaveFails "Hi" "Body" "" "" none
      "").returned = false ∧
    (send_email exProfileOk exEnvSaveFails "Hi" "Body" "" "" none
      "").transportCalls =
      [{ subject := "Hi", message := "Body", from_email := "",
         recipient_list := [get_preferred_email exProfileOk],
         html_message := "" }] :=
  (send_email_true_iff_sent_and_persisted exProfileOk exEnvSaveFails "Hi"
    "Body" "" "" none "" "db gone" 1).2
    (by decide) (by decide) (by decide) (by decide)

/-- Setting a key then looking it up yields the new value. -/
theorem ctxLookup_ctxSet_self (c : Ctx) (k : String) (v : CtxVal) :
    ctxLookup (ctxSet c k v) k = some v := by
  induction c with
  | nil => simp [ctxSet, ctxLookup]
  | cons kv rest ih =>
    obtain ⟨k0, v0⟩ := kv
    by_cases h : k0 = k
    · simp [ctxSet, h, ctxLookup]
    · simp [ctxSet, h, ctxLookup, ih]

/-- Setting one key does not change the value looked up at another. -/
theorem ctxLookup_ctxSet_other (c : Ctx) (k k2 : String) (v : CtxVal)
    (h : k ≠ k2) : ctxLookup (ctxSet c k v) k2 = ctxLookup c k2 := by
  induction c with
  | nil => simp [ctxSet, ctxLookup, h]
  | cons kv rest ih =>
    obtain ⟨k0, v0⟩ := kv
    by_cases h0 : k0 = k
    · subst h0
      simp [ctxSet, ctxLookup, h]
    · simp only [ctxSet, if_neg h0]
      by_cases h2 : k0 = k2
      · simp [ctxLookup, h2]
      · simp [ctxLookup, h2, ih]

/-- C10 as stated is false: a call with a template reference and a
context both supplied, but with notifications disabled, returns before
the `try` block and never mutates the context — the caller's value under
`"patient"` survives and `"email_profile"` is never added. -/
theorem send_email_context_unchanged_on_skip :
    (send_email exProfileDisabled exEnvOk "Hi" "" "" "tpl.html"
      (some exCtx) "").ctxAfter = some exCtx ∧
    ctxLookup exCtx "patient" = some (CtxVal.str "caller-value") ∧
    ctxLookup exCtx "email_profile" = none := by decide

/-- C10 amended: for every call that passes the eligibility gate with a
template reference and a context both supplied, the caller's context
dictionary is mutated in place: the keys `"patient"` and
`"email_profile"` are set (overwriting any caller values) before
rendering — the mutation survives even a raising render, since the
statement holds for every oracle — and both keys remain bound in the
dictionary the caller sees after the call. -/
theorem send_email_context_mutation (p : PatientEmail) (env : SendEnv)
    (subject message html_message template_name : String) (c : Ctx)
    (from_email : String) (helig : eligible p)
    (htn : template_name ≠ "") :
    (send_email p env subject message html_message template_name (some c)
      from_email).ctxAfter =
      some (ctxSet (ctxSet c "patient" (CtxVal.patientRef p.patientPk))
        "email_profile" (CtxVal.profileRef p)) ∧
    ctxLookup (ctxSet (ctxSet c "patient" (CtxVal.patientRef p.patientPk))
      "email_profile" (CtxVal.profileRef p)) "patient" =
      some (CtxVal.patientRef p.patientPk) ∧
    ctxLookup (ctxSet (ctxSet c "patient" (CtxVal.patientRef p.patientPk))
      "email_profile" (CtxVal.profileRef p)) "email_profile" =
      some (CtxVal.profileRef p) := by
  refine ⟨?_, ?_, ?_⟩
  · cases hr : env.render with
    | error e =>
      rw [send_email_eligible_render_error p env subject message
        html_message template_name c from_email e helig htn hr]
    | ok html =>
      rw [send_email_eligible_template p env subject message html_message
        template_name c from_email html helig htn hr, deliver_ctxAfter]
  · rw [ctxLookup_ctxSet_other _ _ _ _ (by decide), ctxLookup_ctxSet_self]
  · rw [ctxLookup_ctxSet_self]

/-- Witness for the amended C10, with a caller context whose
`"patient"` value gets overwritten. -/
theorem send_email_context_mutation_witness :
    (send_email exProfileOk exEnvOk "Hi" "" "" "tpl.html" (some exCtx)
      "").ctxAfter =
      some (ctxSet (ctxSet exCtx "patient"
        (CtxVal.patientRef exProfileOk.patientPk)) "email_profile"
        (CtxVal.profileRef exProfileOk)) ∧
    ctxLookup (ctxSet (ctxSet exCtx "patient"
      (CtxVal.patientRef exProfileOk.patientPk)) "email_profile"
      (CtxVal.profileRef exProfileOk)) "patient" =
      some (CtxVal.patientRef exProfileOk.patientPk) ∧
    ctxLookup (ctxSet (ctxSet exCtx "patient"
      (CtxVal.patientRef exProfileOk.patientPk)) "email_profile"
      (CtxVal.profileRef exProfileOk)) "email_profile" =
      some (CtxVal.profileRef exProfileOk) :=
  send_email_context_mutation exProfileOk exEnvOk "Hi" "" "" "tpl.html"
    exCtx "" (by decide) (by decide)

end PatientEmailPlugin
